import Mathlib

/-!
Shallow embedding of the inventory data-access layer in
`src/db/crud/books.crud.ts` (drizzle ORM over a relational store with two
tables, `books` and `physical_books`).

The store is modelled as explicit state (`Store`): lists of rows plus the
next store-assigned `books.id`.  Every awaited store query is modelled by
`dbCall`, which takes a Boolean failure-injection flag: `true` means the
underlying store call fails (connection error, timeout, ...) and the call
raises `Err.store`; `false` means the call succeeds and returns its value.
A `try { ... } catch` block in the source becomes a `match` on the
`Except` value.  SQL semantics used by the source are modelled as:
`LIKE '%q%'` is case-sensitive substring containment (`likeContains`),
`LOWER` maps every character to lower case (`lowerStr`), `ORDER BY` is a
sort by the selected column (`List.insertionSort`), `LIMIT n OFFSET k` is
`(·.drop k).take n`, and `count(*)` is the length of the filtered rows.
-/

/-- One row of the `books` table (a Title of the catalog): `id` is unique
and store-assigned, the remaining columns come from the caller. -/
structure Book where
  id : Nat
  isbn : String
  title : String
  author : String
  genre : String
  totalCopies : Nat
  availableCopies : Nat
  cover : String
deriving DecidableEq

/-- One row of the `physical_books` table (a physical Copy of a Title):
`pid` is unique and store-assigned, `bookId` references `Book.id`. -/
structure PhysicalBook where
  pid : Nat
  bookId : Nat
  borrowed : Bool
  returnDate : Option String
  userId : Option String
  currTransactionId : Option Nat
deriving DecidableEq

/-- The relational store: the two tables plus the next store-assigned
`books.id` (serial column). -/
structure Store where
  books : List Book
  physicalBooks : List PhysicalBook
  nextBookId : Nat
deriving DecidableEq

/-- Failures an operation can raise.  The source throws plain `Error`
values; the spec types the two guarded throws of `deletePhysicalBook` as
`NotFoundError` / `InvalidStateError` and any underlying store failure as
`StoreError`, so the embedding distinguishes the three kinds, keeping the
source's message strings. -/
inductive Err where
  | store : Err
  | notFoundError : String → Err
  | invalidStateError : String → Err
deriving DecidableEq

/-- One awaited store query: fails with `Err.store` when the injected
failure flag is set, otherwise succeeds with its value. -/
def dbCall (fail : Bool) (v : α) : Except Err α :=
  if fail then Except.error Err.store else Except.ok v

/-- Character-list version of case-sensitive prefix test, used to model
SQL `LIKE` pattern matching. -/
def startsWithChars : List Char → List Char → Bool
  | [], _ => true
  | _ :: _, [] => false
  | p :: ps, c :: cs => p == c && startsWithChars ps cs

/-- Character-list version of case-sensitive containment. -/
def hasInfixChars (pat : List Char) : List Char → Bool
  | [] => startsWithChars pat []
  | c :: cs => startsWithChars pat (c :: cs) || hasInfixChars pat cs

/-- SQL `col LIKE '%pat%'`: case-sensitive substring containment. -/
def likeContains (hay pat : String) : Bool :=
  hasInfixChars pat.toList hay.toList

/-- SQL `LOWER`: lower-case every character. -/
def lowerStr (s : String) : String :=
  String.mk (s.toList.map Char.toLower)

/-- Column comparison used by `readBooks`'s dynamic
`books[sortField as keyof ...]` order-by: compares the column named by
`sortField` (string columns lexicographically, numeric columns by ≤).  An
unknown field name compares everything equal (the source would build a
broken query there; no claim depends on that case). -/
def fieldLe (sortField : String) (a b : Book) : Bool :=
  if sortField = "id" then decide (a.id ≤ b.id)
  else if sortField = "isbn" then decide (a.isbn ≤ b.isbn)
  else if sortField = "title" then decide (a.title ≤ b.title)
  else if sortField = "author" then decide (a.author ≤ b.author)
  else if sortField = "genre" then decide (a.genre ≤ b.genre)
  else if sortField = "totalCopies" then decide (a.totalCopies ≤ b.totalCopies)
  else if sortField = "availableCopies" then decide (a.availableCopies ≤ b.availableCopies)
  else if sortField = "cover" then decide (a.cover ≤ b.cover)
  else true

/-- Ascending order-by relation on the column named `f`. -/
def ascRel (f : String) : Book → Book → Prop := fun a b => fieldLe f a b = true

/-- Descending order-by relation on the column named `f`. -/
def descRel (f : String) : Book → Book → Prop := fun a b => fieldLe f b a = true

instance instAscRelDec (f : String) : DecidableRel (ascRel f) :=
  fun _ _ => instDecidableEqBool _ _

instance instDescRelDec (f : String) : DecidableRel (descRel f) :=
  fun _ _ => instDecidableEqBool _ _

theorem fieldLe_total (f : String) (a b : Book) :
    fieldLe f a b = true ∨ fieldLe f b a = true := by
  unfold fieldLe
  split_ifs <;> simp <;> first | exact Nat.le_total _ _ | exact le_total _ _

theorem fieldLe_trans (f : String) (a b c : Book)
    (h1 : fieldLe f a b = true) (h2 : fieldLe f b c = true) :
    fieldLe f a c = true := by
  unfold fieldLe at *
  split_ifs at * <;> simp_all <;> exact le_trans h1 h2

instance instAscRelTotal (f : String) : IsTotal Book (ascRel f) :=
  ⟨fieldLe_total f⟩

instance instAscRelTrans (f : String) : IsTrans Book (ascRel f) :=
  ⟨fun a b c => fieldLe_trans f a b c⟩

instance instDescRelTotal (f : String) : IsTotal Book (descRel f) :=
  ⟨fun a b => (fieldLe_total f a b).symm⟩

instance instDescRelTrans (f : String) : IsTrans Book (descRel f) :=
  ⟨fun a b c h1 h2 => fieldLe_trans f c b a h2 h1⟩

/-- The `orderBy` clause of `readBooks`: `sortOrder === "desc"` sorts the
named column descending, anything else ascending. -/
def sortBooks (sortField sortOrder : String) (l : List Book) : List Book :=
  if sortOrder == "desc" then l.insertionSort (descRel sortField)
  else l.insertionSort (ascRel sortField)

/-- The relation of `orderBy(desc(books.id))`. -/
def idDescRel : Book → Book → Prop := fun a b => b.id ≤ a.id

instance instIdDescRelDec : DecidableRel idDescRel :=
  fun a b => Nat.decLe b.id a.id

instance instIdDescRelTotal : IsTotal Book idDescRel :=
  ⟨fun a b => Nat.le_total b.id a.id⟩

instance instIdDescRelTrans : IsTrans Book idDescRel :=
  ⟨fun _ _ _ h1 h2 => Nat.le_trans h2 h1⟩

/-- SQL `ORDER BY id DESC`. -/
def sortByIdDesc (l : List Book) : List Book :=
  l.insertionSort idDescRel

/-- JavaScript `Math.ceil(a / b)` for natural inputs. -/
def mathCeilDiv (a b : Nat) : Nat := (a + b - 1) / b

/-- Result of a drizzle neon-http insert without `.returning()`: driver
metadata (command summary) — the `rows` array is empty, it carries no
inserted row data. -/
structure DriverResult where
  rows : List Book
  rowCount : Nat
deriving DecidableEq

/-- Embedding of `createBooks` (src/db/crud/books.crud.ts:8-26): builds
the row from the parameters, inserts it (the store assigns
`id = nextBookId`), and returns the raw driver result of
`db.insert(books).values(book)` — mind the absence of `.returning()`.
The `catch` re-throws, so a store failure propagates and leaves the store
unchanged. -/
def createBooks (isbn title author genre : String)
    (totalCopies availableCopies : Nat) (cover : String)
    (fail : Bool) (s : Store) : Except Err DriverResult × Store :=
  let book : Book :=
    ⟨s.nextBookId, isbn, title, author, genre, totalCopies, availableCopies, cover⟩
  match dbCall fail (DriverResult.mk [] 1) with
  | Except.error e => (Except.error e, s)
  | Except.ok res =>
      (Except.ok res,
       { s with books := s.books ++ [book], nextBookId := s.nextBookId + 1 })

/-- Result shape of `readBooks`. -/
structure ReadBooksResult where
  books : List Book
  totalBooks : Nat
  totalPages : Nat
deriving DecidableEq

/-- The `whereClause` of `readBooks`: a non-empty (truthy) `searchQuery`
filters on `title LIKE '%q%' OR author LIKE '%q%' OR isbn LIKE '%q%'`
(case-sensitive); an empty query installs no filter. -/
def readBooksWhere (searchQuery : String) (b : Book) : Bool :=
  if searchQuery == "" then true
  else likeContains b.title searchQuery || likeContains b.author searchQuery ||
       likeContains b.isbn searchQuery

/-- Embedding of `readBooks` (src/db/crud/books.crud.ts:28-69):
`offset = (page - 1) * pageSize`; the row query filters, sorts, offsets
and limits; the count query filters only; the two queries run under
`Promise.all` with no catch, so either failure propagates;
`totalPages = Math.ceil(total / pageSize)`. -/
def readBooks (page pageSize : Nat) (sortField sortOrder searchQuery : String)
    (f1 f2 : Bool) (s : Store) : Except Err ReadBooksResult := do
  let offset := (page - 1) * pageSize
  let filtered := s.books.filter (readBooksWhere searchQuery)
  let booksList ← dbCall f1
    (((sortBooks sortField sortOrder filtered).drop offset).take pageSize)
  let total ← dbCall f2 filtered.length
  pure ⟨booksList, total, mathCeilDiv total pageSize⟩

/-- Embedding of `updateBooks` (src/db/crud/books.crud.ts:71-84):
`update(books).set({totalCopies, availableCopies}).where(eq(books.id, id))
.returning()` rewrites the two copy-count columns of every row with the
given id and returns the updated rows; the operation hands back
`updatedBook[0]` (`none` when no row matched).  The `catch` returns
`null` and the failed update leaves the store unchanged. -/
def updateBooks (id totalCopies availableCopies : Nat) (fail : Bool)
    (s : Store) : Option Book × Store :=
  let newBooks := s.books.map fun b =>
    if b.id == id then
      { b with totalCopies := totalCopies, availableCopies := availableCopies }
    else b
  match dbCall fail (newBooks.filter (fun b => b.id == id)) with
  | Except.error _ => (none, s)
  | Except.ok updatedBook => (updatedBook.head?, { s with books := newBooks })

/-- Embedding of `fetchLimitedBooks` (src/db/crud/books.crud.ts:95-103):
`select from books ORDER BY id DESC LIMIT limit`; the `catch` swallows a
store failure and returns the empty list. -/
def fetchLimitedBooks (limit : Nat) (fail : Bool) (s : Store) : List Book :=
  match dbCall fail ((sortByIdDesc s.books).take limit) with
  | Except.ok booksData => booksData
  | Except.error _ => []

/-- Embedding of `fetchBookById` (src/db/crud/books.crud.ts:105-109):
`select from books WHERE id = id LIMIT 1`, then `result[0] || null`.
There is no try/catch, so a store failure propagates to the caller. -/
def fetchBookById (id : Nat) (fail : Bool) (s : Store) :
    Except Err (Option Book) := do
  let result ← dbCall fail ((s.books.filter (fun b => b.id == id)).take 1)
  pure result.head?

/-- Embedding of `deletePhysicalBook` (src/db/crud/books.crud.ts:111-131):
fetches the Copy with `LIMIT 1`; throws "Physical book not found" when
the result is empty; throws "Cannot remove a borrowed book" when the
fetched row has `borrowed` set; otherwise deletes the rows with that
`pid` and returns `true`.  The `catch` logs and re-throws, so every
failure propagates; the store is only mutated by the final delete. -/
def deletePhysicalBook (pid : Nat) (f1 f2 : Bool) (s : Store) :
    Except Err Bool × Store :=
  match dbCall f1 ((s.physicalBooks.filter (fun p => p.pid == pid)).take 1) with
  | Except.error e => (Except.error e, s)
  | Except.ok physicalBook =>
      match physicalBook.head? with
      | none => (Except.error (Err.notFoundError "Physical book not found"), s)
      | some pb =>
          if pb.borrowed then
            (Except.error (Err.invalidStateError "Cannot remove a borrowed book"), s)
          else
            match dbCall f2 () with
            | Except.error e => (Except.error e, s)
            | Except.ok _ =>
                (Except.ok true,
                 { s with physicalBooks :=
                     s.physicalBooks.filter (fun p => p.pid != pid) })

/-- Result shape of `fetchBooksByQuery`. -/
structure SearchResult where
  books : List Book
  totalPages : Nat
  currentPage : Nat
  totalBooks : Nat
deriving DecidableEq

/-- One disjunct of the raw SQL filter of `fetchBooksByQuery`:
`LOWER(col) LIKE LOWER('%query%')`, i.e. case-insensitive containment. -/
def ciLike (col query : String) : Bool :=
  likeContains (lowerStr col) (lowerStr query)

/-- The raw SQL `where` of `fetchBooksByQuery`: case-insensitive
substring match against title, author, isbn or genre. -/
def searchWhere (query : String) (b : Book) : Bool :=
  ciLike b.title query || ciLike b.author query || ciLike b.isbn query ||
  ciLike b.genre query

/-- Embedding of `fetchBooksByQuery` (src/db/crud/books.crud.ts:203-247):
row query filters case-insensitively, orders by id descending, offsets
and limits; the count is the length of the filtered id list.  The
`catch` turns any failure into
`{books: [], totalPages: 0, currentPage: page, totalBooks: 0}`. -/
def fetchBooksByQuery (query : String) (page pageSize : Nat)
    (f1 f2 : Bool) (s : Store) : SearchResult :=
  let offset := (page - 1) * pageSize
  let filtered := s.books.filter (searchWhere query)
  match dbCall f1 (((sortByIdDesc filtered).drop offset).take pageSize),
        dbCall f2 filtered.length with
  | Except.ok searchResults, Except.ok totalCount =>
      ⟨searchResults, mathCeilDiv totalCount pageSize, page, totalCount⟩
  | Except.error _, _ => ⟨[], 0, page, 0⟩
  | _, Except.error _ => ⟨[], 0, page, 0⟩

/-- Result shape of `readSingleBook`: the Title's columns spread together
with the computed `availableBooks` count. -/
structure BookWithAvailability where
  book : Book
  availableBooks : Nat
deriving DecidableEq

/-- Embedding of `readSingleBook` (src/db/crud/books.crud.ts:249-273):
fetches the Title with `LIMIT 1` and returns `null` when absent;
otherwise counts the Copies with this `bookId` and `borrowed = false`
and returns the merged record.  The `catch` re-throws, so any store
failure propagates. -/
def readSingleBook (bookId : Nat) (f1 f2 : Bool) (s : Store) :
    Except Err (Option BookWithAvailability) := do
  let book ← dbCall f1 ((s.books.filter (fun b => b.id == bookId)).take 1)
  match book.head? with
  | none => pure none
  | some b => do
      let availableCount ← dbCall f2
        ((s.physicalBooks.filter
            (fun p => p.bookId == bookId && p.borrowed == false)).length)
      pure (some ⟨b, availableCount⟩)

/-! Helper lemmas and concrete sample data used by the witnesses. -/

/-- Sample Title rows. -/
def bookA : Book := ⟨1, "111", "Alpha", "Ann", "Fic", 3, 2, "a.png"⟩

def bookB : Book := ⟨2, "222", "Beta", "Bob", "Sci", 1, 1, "b.png"⟩

/-- Sample Copy rows: one available, one borrowed, both of Title 1. -/
def copyA : PhysicalBook := ⟨1, 1, false, none, none, none⟩

def copyB : PhysicalBook := ⟨2, 1, true, some "2025-01-01", some "u1", some 7⟩

/-- A sample store with two Titles and two Copies. -/
def sampleStore : Store := ⟨[bookA, bookB], [copyA, copyB], 3⟩

/-- The empty store. -/
def emptyStore : Store := ⟨[], [], 1⟩

theorem head?_take_one {α : Type} (l : List α) : (l.take 1).head? = l.head? := by
  cases l <;> rfl

/-- When the key column is duplicate-free, filtering on one key value
returns exactly the one matching row. -/
theorem filter_beq_eq_singleton {α β : Type} [DecidableEq β] (f : α → β) (k : β) :
    ∀ (l : List α), (l.map f).Nodup → ∀ a ∈ l, f a = k →
      l.filter (fun x => f x == k) = [a] := by
  intro l
  induction l with
  | nil => intro _ a ha; cases ha
  | cons b t ih =>
      intro hnd a ha hk
      rw [List.map_cons, List.nodup_cons] at hnd
      rcases List.mem_cons.mp ha with rfl | hat
      · rw [List.filter_cons, if_pos (by simp [hk])]
        have ht : t.filter (fun x => f x == k) = [] := by
          apply List.filter_eq_nil_iff.mpr
          intro x hx
          simp only [beq_iff_eq]
          intro hfx
          refine hnd.1 ?_
          rw [hk, ← hfx]
          exact List.mem_map_of_mem f hx
        rw [ht]
      · have hbk : (f b == k) = false := by
          simp only [beq_eq_false_iff_ne]
          intro hbk
          refine hnd.1 ?_
          rw [hbk, ← hk]
          exact List.mem_map_of_mem f hat
        rw [List.filter_cons, if_neg (by simp [hbk])]
        exact ih hnd.2 a hat hk

theorem mathCeilDiv_le_iff (t ps m : Nat) (h : 0 < ps) :
    mathCeilDiv t ps ≤ m ↔ t ≤ m * ps := by
  unfold mathCeilDiv
  rw [Nat.div_le_iff_le_mul_add_pred h, Nat.mul_comm m ps]
  generalize ps * m = k
  omega

theorem le_mathCeilDiv_mul (t ps : Nat) (h : 0 < ps) :
    t ≤ mathCeilDiv t ps * ps :=
  (mathCeilDiv_le_iff t ps (mathCeilDiv t ps) h).mp (Nat.le_refl _)

/-- Concatenating the size-`ps` chunks of a list reassembles the list, as
soon as the chunk count `n` covers its length. -/
theorem join_chunks {α : Type} (ps : Nat) :
    ∀ (n : Nat) (l : List α), l.length ≤ n * ps →
      ((List.range n).map (fun i => (l.drop (i * ps)).take ps)).flatten = l := by
  intro n
  induction n with
  | zero =>
      intro l h
      simp only [Nat.zero_mul, Nat.le_zero, List.length_eq_zero] at h
      simp [h]
  | succ n ih =>
      intro l h
      rw [List.range_succ_eq_map, List.map_cons, List.map_map, List.flatten_cons]
      have hrw : ((fun i => (l.drop (i * ps)).take ps) ∘ Nat.succ) =
          fun i => ((l.drop ps).drop (i * ps)).take ps := by
        funext i
        simp only [Function.comp_apply, List.drop_drop]
        have harith : Nat.succ i * ps = ps + i * ps := by
          show (i + 1) * ps = ps + i * ps
          ring
        rw [harith]
      rw [hrw]
      have hlen : (l.drop ps).length ≤ n * ps := by
        rw [List.length_drop]
        have harith : (n + 1) * ps = n * ps + ps := by ring
        omega
      rw [ih (l.drop ps) hlen]
      simp [List.take_append_drop]

/-- C10: `fetchBookById` performs no error handling of its own: a store
failure propagates as a raised error, and a `null` return occurs exactly
when the store query succeeds and no Title row matches the id, so `null`
never signals a store failure. -/
theorem fetchBookById_error_policy (id : Nat) (fail : Bool) (s : Store) :
    (fail = true → fetchBookById id fail s = Except.error Err.store) ∧
    (fetchBookById id fail s = Except.ok none ↔
      fail = false ∧ ∀ b ∈ s.books, b.id ≠ id) ∧
    (∀ e, fetchBookById id fail s = Except.error e →
      e = Err.store ∧ fail = true) := by
  cases fail with
  | true =>
      refine ⟨fun _ => rfl, ?_, ?_⟩
      · constructor
        · intro h; cases h
        · rintro ⟨h, -⟩; cases h
      · intro e he
        have : e = Err.store := by
          simpa [fetchBookById, dbCall] using he.symm
        exact ⟨this, rfl⟩
  | false =>
      have hval : fetchBookById id false s =
          Except.ok ((s.books.filter (fun b => b.id == id)).take 1).head? := rfl
      refine ⟨?_, ?_, ?_⟩
      · intro h; cases h
      · rw [hval]
        constructor
        · intro h
          refine ⟨rfl, ?_⟩
          have hnone : ((s.books.filter (fun b => b.id == id)).take 1).head? = none := by
            simpa using h
          rw [head?_take_one, List.head?_eq_none_iff] at hnone
          intro b hb hbid
          have : b ∈ s.books.filter (fun b => b.id == id) :=
            List.mem_filter.mpr ⟨hb, by simp [hbid]⟩
          rw [hnone] at this
          cases this
        · rintro ⟨-, hnone⟩
          have hfil : s.books.filter (fun b => b.id == id) = [] := by
            apply List.filter_eq_nil_iff.mpr
            intro b hb
            simpa using hnone b hb
          rw [hfil]
          rfl
      · intro e he
        rw [hval] at he
        cases he

/-- Witness for C10 on the sample store: id 5 matches no row, so the
successful call returns `none`, and the failing call raises. -/
theorem fetchBookById_error_policy_witness :
    fetchBookById 5 true sampleStore = Except.error Err.store ∧
    fetchBookById 5 false sampleStore = Except.ok none := by
  have h := fetchBookById_error_policy 5 true sampleStore
  have h' := fetchBookById_error_policy 5 false sampleStore
  exact ⟨h.1 rfl, (h'.2.1).mpr ⟨rfl, by decide⟩⟩

/-- C7: `fetchLimitedBooks` returns the `limit` most-recently-created
Titles (the rows with the largest ids, ids being store-assigned in
creation order) ordered descending by id; on store failure it returns
the empty list rather than raising. -/
theorem fetchLimitedBooks_policy (limit : Nat) (s : Store) :
    fetchLimitedBooks limit true s = [] ∧
    (fetchLimitedBooks limit false s).length = min limit s.books.length ∧
    List.Pairwise (fun a b => b.id ≤ a.id) (fetchLimitedBooks limit false s) ∧
    (∀ b ∈ fetchLimitedBooks limit false s, b ∈ s.books) ∧
    (∀ b' ∈ s.books, b' ∉ fetchLimitedBooks limit false s →
      ∀ b ∈ fetchLimitedBooks limit false s, b'.id ≤ b.id) := by
  have hval : fetchLimitedBooks limit false s = (sortByIdDesc s.books).take limit := rfl
  have hperm : (sortByIdDesc s.books).Perm s.books :=
    List.perm_insertionSort idDescRel s.books
  have hsorted : List.Pairwise idDescRel (sortByIdDesc s.books) :=
    List.sorted_insertionSort idDescRel s.books
  refine ⟨rfl, ?_, ?_, ?_, ?_⟩
  · rw [hval, List.length_take, hperm.length_eq]
  · rw [hval]
    exact List.Pairwise.sublist (List.take_sublist limit _) hsorted
  · intro b hb
    rw [hval] at hb
    exact hperm.mem_iff.mp ((List.take_sublist limit _).subset hb)
  · intro b' hb' hnotin b hb
    rw [hval] at hnotin hb
    have hb'sorted : b' ∈ (sortByIdDesc s.books).take limit ++
        (sortByIdDesc s.books).drop limit := by
      rw [List.take_append_drop]
      exact hperm.mem_iff.mpr hb'
    have hb'drop : b' ∈ (sortByIdDesc s.books).drop limit := by
      rcases List.mem_append.mp hb'sorted with h | h
      · exact absurd h hnotin
      · exact h
    have hpw : List.Pairwise idDescRel ((sortByIdDesc s.books).take limit ++
        (sortByIdDesc s.books).drop limit) := by
      rw [List.take_append_drop]
      exact hsorted
    exact (List.pairwise_append.mp hpw).2.2 b hb b' hb'drop

/-- Witness for C7 on the sample store: the failing call returns the
empty list, and the available ordering fact `bookA.id ≤ bookB.id` follows
from bookA being the row left out of the most-recent single-row page. -/
theorem fetchLimitedBooks_policy_witness :
    fetchLimitedBooks 1 true sampleStore = [] ∧ bookA.id ≤ bookB.id := by
  have h := fetchLimitedBooks_policy 1 sampleStore
  exact ⟨h.1, h.2.2.2.2 bookA (by decide) (by decide) bookB (by decide)⟩

/-- C1: `deletePhysicalBook` first fetches the Copy; when no Copy with
that pid exists it fails with the not-found error; when the Copy is
borrowed it fails with the invalid-state error ("Cannot remove a
borrowed book" — the spec phrases the message with "copy" for its Copy
entity) and the row remains present; when the Copy exists and is not
borrowed it returns `true` and the row is absent afterwards. -/
theorem deletePhysicalBook_guard (pid : Nat) (s : Store)
    (hpid : (s.physicalBooks.map PhysicalBook.pid).Nodup) :
    ((∀ p ∈ s.physicalBooks, p.pid ≠ pid) →
      deletePhysicalBook pid false false s =
        (Except.error (Err.notFoundError "Physical book not found"), s)) ∧
    (∀ pb ∈ s.physicalBooks, pb.pid = pid →
      (pb.borrowed = true →
        deletePhysicalBook pid false false s =
          (Except.error (Err.invalidStateError "Cannot remove a borrowed book"), s) ∧
        pb ∈ (deletePhysicalBook pid false false s).2.physicalBooks) ∧
      (pb.borrowed = false →
        (deletePhysicalBook pid false false s).1 = Except.ok true ∧
        pb ∉ (deletePhysicalBook pid false false s).2.physicalBooks ∧
        ∀ q ∈ (deletePhysicalBook pid false false s).2.physicalBooks,
          q ∈ s.physicalBooks ∧ q.pid ≠ pid)) := by
  constructor
  · intro hnone
    have hfil : s.physicalBooks.filter (fun p => p.pid == pid) = [] := by
      apply List.filter_eq_nil_iff.mpr
      intro p hp
      simpa using hnone p hp
    simp [deletePhysicalBook, dbCall, hfil]
  · intro pb hpb hpbid
    have hfil : s.physicalBooks.filter (fun p => p.pid == pid) = [pb] :=
      filter_beq_eq_singleton PhysicalBook.pid pid s.physicalBooks hpid pb hpb hpbid
    constructor
    · intro hborr
      have hres : deletePhysicalBook pid false false s =
          (Except.error (Err.invalidStateError "Cannot remove a borrowed book"), s) := by
        simp [deletePhysicalBook, dbCall, hfil, hborr]
      exact ⟨hres, by rw [hres]; exact hpb⟩
    · intro hborr
      have hres : deletePhysicalBook pid false false s =
          (Except.ok true,
           { s with physicalBooks :=
               s.physicalBooks.filter (fun p => p.pid != pid) }) := by
        simp [deletePhysicalBook, dbCall, hfil, hborr]
      rw [hres]
      refine ⟨rfl, ?_, ?_⟩
      · intro hmem
        have hcond := (List.mem_filter.mp hmem).2
        simp [hpbid] at hcond
      · intro q hq
        have h2 := List.mem_filter.mp hq
        refine ⟨h2.1, ?_⟩
        simpa using h2.2

/-- Witness for C1 on the sample store: deleting the available Copy
(pid 1) succeeds, deleting the borrowed Copy (pid 2) raises the
invalid-state error and leaves the store unchanged. -/
theorem deletePhysicalBook_guard_witness :
    (deletePhysicalBook 1 false false sampleStore).1 = Except.ok true ∧
    deletePhysicalBook 2 false false sampleStore =
      (Except.error (Err.invalidStateError "Cannot remove a borrowed book"),
       sampleStore) := by
  have h1 := deletePhysicalBook_guard 1 sampleStore (by decide)
  have h2 := deletePhysicalBook_guard 2 sampleStore (by decide)
  exact ⟨((h1.2 copyA (by decide) rfl).2 rfl).1, ((h2.2 copyB (by decide) rfl).1 rfl).1⟩

/-- C8: `updateBooks` rewrites only the two copy-count columns of the
matching Title row, leaving id, isbn, title, author, genre and cover (and
every other row, the Copy table and the id counter) unchanged, and
returns `null` (and an unchanged store) on store failure instead of
raising. -/
theorem updateBooks_frame (id tc ac : Nat) (s : Store) :
    updateBooks id tc ac true s = (none, s) ∧
    (updateBooks id tc ac false s).2.physicalBooks = s.physicalBooks ∧
    (updateBooks id tc ac false s).2.nextBookId = s.nextBookId ∧
    (updateBooks id tc ac false s).2.books.length = s.books.length ∧
    (∀ (i : Nat) (b b' : Book), s.books[i]? = some b →
      (updateBooks id tc ac false s).2.books[i]? = some b' →
      b'.id = b.id ∧ b'.isbn = b.isbn ∧ b'.title = b.title ∧
      b'.author = b.author ∧ b'.genre = b.genre ∧ b'.cover = b.cover ∧
      (b.id = id → b'.totalCopies = tc ∧ b'.availableCopies = ac) ∧
      (b.id ≠ id → b' = b)) := by
  have hval : (updateBooks id tc ac false s).2.books =
      s.books.map (fun b => if b.id == id then
        { b with totalCopies := tc, availableCopies := ac } else b) := rfl
  refine ⟨rfl, rfl, rfl, ?_, ?_⟩
  · rw [hval, List.length_map]
  · intro i b b' hb hb'
    rw [hval, List.getElem?_map, hb] at hb'
    simp only [Option.map_some'] at hb'
    by_cases hid : b.id = id
    · rw [if_pos (by simp [hid])] at hb'
      injection hb' with hb'
      subst hb'
      exact ⟨rfl, rfl, rfl, rfl, rfl, rfl, fun _ => ⟨rfl, rfl⟩,
        fun hne => absurd hid hne⟩
    · rw [if_neg (by simp [hid])] at hb'
      injection hb' with hb'
      subst hb'
      exact ⟨rfl, rfl, rfl, rfl, rfl, rfl, fun h => absurd h hid, fun _ => rfl⟩

/-- Witness for C8 on the sample store: the failing call returns `null`
with the store unchanged, and the successful call leaves the title of the
updated row (id 1, new counts 5 and 4) untouched. -/
theorem updateBooks_frame_witness :
    updateBooks 1 5 4 true sampleStore = (none, sampleStore) ∧
    Book.title ⟨1, "111", "Alpha", "Ann", "Fic", 5, 4, "a.png"⟩ = bookA.title := by
  have h := updateBooks_frame 1 5 4 sampleStore
  exact ⟨h.1,
    (h.2.2.2.2 0 bookA ⟨1, "111", "Alpha", "Ann", "Fic", 5, 4, "a.png"⟩
      rfl rfl).2.2.1⟩

/-- C2: `readSingleBook` returns `null` when no Title matches; otherwise
it returns the Title merged with `availableBooks`, the count of Copy rows
with this `bookId` and `borrowed = false` — a value computed from the
Copy table alone, independent of the Title's stored `availableCopies`
column; any store failure propagates as a raised error. -/
theorem readSingleBook_availability (id : Nat) (f1 f2 : Bool) (s : Store)
    (hid : (s.books.map Book.id).Nodup) :
    (f1 = true → readSingleBook id f1 f2 s = Except.error Err.store) ∧
    (f1 = false → (∀ b ∈ s.books, b.id ≠ id) →
      readSingleBook id f1 f2 s = Except.ok none) ∧
    (∀ b ∈ s.books, b.id = id → f1 = false →
      (f2 = true → readSingleBook id f1 f2 s = Except.error Err.store) ∧
      (f2 = false → readSingleBook id f1 f2 s =
        Except.ok (some ⟨b,
          (s.physicalBooks.filter
            (fun p => p.bookId == id && p.borrowed == false)).length⟩))) := by
  refine ⟨?_, ?_, ?_⟩
  · intro h
    subst h
    rfl
  · intro h1 hnone
    subst h1
    have hfil : s.books.filter (fun b => b.id == id) = [] := by
      apply List.filter_eq_nil_iff.mpr
      intro b hb
      simpa using hnone b hb
    simp only [readSingleBook, hfil]
    rfl
  · intro b hb hbid h1
    subst h1
    have hfil : s.books.filter (fun x => x.id == id) = [b] :=
      filter_beq_eq_singleton Book.id id s.books hid b hb hbid
    constructor
    · intro h2
      subst h2
      simp only [readSingleBook, hfil]
      rfl
    · intro h2
      subst h2
      simp only [readSingleBook, hfil]
      rfl

/-- Witness for C2 on the sample store: Title 1 has two Copies of which
exactly one is available, so the merged record carries
`availableBooks = 1` even though the Title row itself stores
`availableCopies = 2`. -/
theorem readSingleBook_availability_witness :
    readSingleBook 1 false false sampleStore = Except.ok (some ⟨bookA, 1⟩) := by
  have h := ((readSingleBook_availability 1 false false sampleStore
    (by decide)).2.2 bookA (by decide) rfl rfl).2 rfl
  exact h.trans rfl

/-- With both store calls succeeding, `readBooks` computes the page
window, the filtered count and the page count. -/
theorem readBooks_ok_eq (page pageSize : Nat) (sf so q : String) (s : Store) :
    readBooks page pageSize sf so q false false s =
      Except.ok ⟨((sortBooks sf so (s.books.filter (readBooksWhere q))).drop
          ((page - 1) * pageSize)).take pageSize,
        (s.books.filter (readBooksWhere q)).length,
        mathCeilDiv (s.books.filter (readBooksWhere q)).length pageSize⟩ := rfl

theorem sortBooks_perm (f o : String) (l : List Book) :
    (sortBooks f o l).Perm l := by
  unfold sortBooks
  split
  · exact List.perm_insertionSort _ _
  · exact List.perm_insertionSort _ _

theorem sortBooks_nil (f o : String) : sortBooks f o [] = [] := by
  unfold sortBooks
  split <;> rfl

theorem mathCeilDiv_zero (ps : Nat) : mathCeilDiv 0 ps = 0 := by
  unfold mathCeilDiv
  cases ps with
  | zero => rfl
  | succ n => exact Nat.div_eq_of_lt (by omega)

/-- C4: `readBooks` uses 1-indexed pagination — the page window starts at
offset `(page - 1) * pageSize` of the sorted filtered rows — its
`totalPages` is the least page count covering `totalBooks` rows of size
`pageSize` (the ceiling of the division), and any `sortOrder` other than
`"desc"` behaves exactly like `"asc"`. -/
theorem readBooks_pagination (page pageSize : Nat)
    (sortField sortOrder searchQuery : String) (f1 f2 : Bool) (s : Store)
    (_hp : 1 ≤ page) (hps : 1 ≤ pageSize) :
    (sortOrder ≠ "desc" →
      readBooks page pageSize sortField sortOrder searchQuery f1 f2 s =
        readBooks page pageSize sortField "asc" searchQuery f1 f2 s) ∧
    (∀ r, readBooks page pageSize sortField sortOrder searchQuery f1 f2 s =
        Except.ok r →
      (∀ i, i < pageSize → r.books[i]? =
        (sortBooks sortField sortOrder
          (s.books.filter (readBooksWhere searchQuery)))[(page - 1) * pageSize + i]?) ∧
      r.totalBooks ≤ r.totalPages * pageSize ∧
      (∀ m : Nat, r.totalBooks ≤ m * pageSize → r.totalPages ≤ m)) := by
  constructor
  · intro h
    cases f1 with
    | true => rfl
    | false =>
        cases f2 with
        | true => rfl
        | false =>
            unfold readBooks
            have hso : sortBooks sortField sortOrder = sortBooks sortField "asc" := by
              funext l
              unfold sortBooks
              rw [if_neg (by simpa using h), if_neg (by decide)]
            rw [hso]
  · intro r hr
    cases f1 with
    | true => cases hr
    | false =>
        cases f2 with
        | true => cases hr
        | false =>
            rw [readBooks_ok_eq] at hr
            injection hr with hr
            subst hr
            dsimp only
            refine ⟨?_, ?_, ?_⟩
            · intro i hi
              rw [List.getElem?_take, if_pos hi, List.getElem?_drop]
            · exact le_mathCeilDiv_mul _ pageSize hps
            · intro m hm
              exact (mathCeilDiv_le_iff _ pageSize m hps).mpr hm

/-- Witness for C4 on the sample store: an unknown sort order behaves
like ascending, and the returned counts satisfy the coverage bound. -/
theorem readBooks_pagination_witness :
    readBooks 1 2 "id" "unknown" "" false false sampleStore =
      readBooks 1 2 "id" "asc" "" false false sampleStore ∧
    (2 : Nat) ≤ 1 * 2 := by
  have h := readBooks_pagination 1 2 "id" "unknown" "" false false sampleStore
    (by decide) (by decide)
  exact ⟨h.1 (by decide), (h.2 ⟨[bookA, bookB], 2, 1⟩ rfl).2.1⟩

/-- C5: with a non-empty `searchQuery`, `readBooks` returns and counts
only rows whose title, author or isbn contains the query as a
case-sensitive substring; with an empty query no filter is applied; and a
non-empty query matching no row yields an empty page, a zero count and
zero pages. -/
theorem readBooks_searchFilter (page pageSize : Nat)
    (sortField sortOrder q : String) (s : Store) :
    ∀ r, readBooks page pageSize sortField sortOrder q false false s =
        Except.ok r →
      (q ≠ "" →
        (∀ b ∈ r.books, b ∈ s.books ∧
          (likeContains b.title q || likeContains b.author q ||
            likeContains b.isbn q) = true) ∧
        r.totalBooks = (s.books.filter (fun b =>
          likeContains b.title q || likeContains b.author q ||
          likeContains b.isbn q)).length ∧
        ((∀ b ∈ s.books, (likeContains b.title q || likeContains b.author q ||
            likeContains b.isbn q) = false) →
          r.books = [] ∧ r.totalBooks = 0 ∧ r.totalPages = 0)) ∧
      (q = "" →
        r.books = ((sortBooks sortField sortOrder s.books).drop
          ((page - 1) * pageSize)).take pageSize ∧
        r.totalBooks = s.books.length) := by
  intro r hr
  rw [readBooks_ok_eq] at hr
  injection hr with hr
  subst hr
  dsimp only
  constructor
  · intro hq
    have hw : readBooksWhere q = fun b =>
        likeContains b.title q || likeContains b.author q ||
        likeContains b.isbn q := by
      funext b
      unfold readBooksWhere
      rw [if_neg (by simpa using hq)]
    rw [hw]
    refine ⟨?_, rfl, ?_⟩
    · intro b hb
      have hb2 : b ∈ s.books.filter (fun b =>
          likeContains b.title q || likeContains b.author q ||
          likeContains b.isbn q) := by
        have hsub : (((sortBooks sortField sortOrder
            (s.books.filter (fun b =>
              likeContains b.title q || likeContains b.author q ||
              likeContains b.isbn q))).drop ((page - 1) * pageSize)).take
              pageSize).Sublist
            (sortBooks sortField sortOrder
              (s.books.filter (fun b =>
                likeContains b.title q || likeContains b.author q ||
                likeContains b.isbn q))) :=
          (List.take_sublist _ _).trans (List.drop_sublist _ _)
        exact (sortBooks_perm sortField sortOrder _).mem_iff.mp (hsub.subset hb)
      exact ⟨(List.mem_filter.mp hb2).1, (List.mem_filter.mp hb2).2⟩
    · intro hz
      have hfil : s.books.filter (fun b =>
          likeContains b.title q || likeContains b.author q ||
          likeContains b.isbn q) = [] := by
        apply List.filter_eq_nil_iff.mpr
        intro b hb
        simp [hz b hb]
      rw [hfil, sortBooks_nil]
      exact ⟨by simp, rfl, mathCeilDiv_zero pageSize⟩
  · intro hq
    subst hq
    have hfid : s.books.filter (readBooksWhere "") = s.books := by
      simp [readBooksWhere]
    rw [hfid]
    exact ⟨rfl, rfl⟩

/-- Witness for C5 on the sample store: the query "zzz" is non-empty and
matches no row, so the page is empty with zero count and zero pages. -/
theorem readBooks_searchFilter_witness :
    ("zzz" : String) ≠ "" ∧
    readBooks 1 10 "id" "asc" "zzz" false false sampleStore =
      Except.ok ⟨[], 0, 0⟩ ∧
    (⟨[], 0, 0⟩ : ReadBooksResult).totalPages = 0 := by
  have h := readBooks_searchFilter 1 10 "id" "asc" "zzz" sampleStore
    ⟨[], 0, 0⟩ rfl
  exact ⟨by decide, rfl, ((h.1 (by decide)).2.2 (by decide)).2.2⟩

/-- C6: `fetchBooksByQuery` matches rows by case-insensitive substring
across title, author, isbn and genre, orders results by id descending,
and on any store failure returns
`{books: [], totalPages: 0, currentPage: page, totalBooks: 0}` instead of
raising (the function is total — the catch swallows the failure). -/
theorem fetchBooksByQuery_policy (query : String) (page pageSize : Nat)
    (f1 f2 : Bool) (s : Store) :
    ((f1 = true ∨ f2 = true) →
      fetchBooksByQuery query page pageSize f1 f2 s = ⟨[], 0, page, 0⟩) ∧
    (fetchBooksByQuery query page pageSize false false s).currentPage = page ∧
    (∀ b ∈ (fetchBooksByQuery query page pageSize false false s).books,
      b ∈ s.books ∧ searchWhere query b = true) ∧
    (fetchBooksByQuery query page pageSize false false s).totalBooks =
      (s.books.filter (searchWhere query)).length ∧
    List.Pairwise (fun a b => b.id ≤ a.id)
      (fetchBooksByQuery query page pageSize false false s).books := by
  have hok : fetchBooksByQuery query page pageSize false false s =
      ⟨((sortByIdDesc (s.books.filter (searchWhere query))).drop
          ((page - 1) * pageSize)).take pageSize,
        mathCeilDiv (s.books.filter (searchWhere query)).length pageSize,
        page,
        (s.books.filter (searchWhere query)).length⟩ := rfl
  refine ⟨?_, ?_, ?_, ?_, ?_⟩
  · rintro (h | h) <;> subst h
    · cases f2 <;> rfl
    · cases f1 <;> rfl
  · rw [hok]
  · intro b hb
    rw [hok] at hb
    have hsub : (((sortByIdDesc (s.books.filter (searchWhere query))).drop
        ((page - 1) * pageSize)).take pageSize).Sublist
        (sortByIdDesc (s.books.filter (searchWhere query))) :=
      (List.take_sublist _ _).trans (List.drop_sublist _ _)
    have hb2 : b ∈ s.books.filter (searchWhere query) :=
      (List.perm_insertionSort idDescRel _).mem_iff.mp (hsub.subset hb)
    exact ⟨(List.mem_filter.mp hb2).1, (List.mem_filter.mp hb2).2⟩
  · rw [hok]
  · rw [hok]
    have hsorted : List.Pairwise idDescRel
        (sortByIdDesc (s.books.filter (searchWhere query))) :=
      List.sorted_insertionSort idDescRel _
    exact List.Pairwise.sublist
      ((List.take_sublist _ _).trans (List.drop_sublist _ _)) hsorted

/-- Witness for C6 on the sample store: a failing store call yields the
zeroed shape carrying the requested page, and the lower-cased query
"beta" matches the Title "Beta". -/
theorem fetchBooksByQuery_policy_witness :
    fetchBooksByQuery "beta" 1 10 true false sampleStore = ⟨[], 0, 1, 0⟩ ∧
    (bookB ∈ sampleStore.books ∧ searchWhere "beta" bookB = true) := by
  have h := fetchBooksByQuery_policy "beta" 1 10 true false sampleStore
  have h2 := fetchBooksByQuery_policy "beta" 1 10 false false sampleStore
  exact ⟨h.1 (Or.inl rfl), h2.2.2.1 bookB (by decide)⟩

/-- The item sequence of the 1-indexed page `i + 1` of `readBooks`, with
no store failure injected. -/
def readBooksPage (pageSize : Nat) (sf so q : String) (s : Store) (i : Nat) :
    List Book :=
  match readBooks (i + 1) pageSize sf so q false false s with
  | Except.ok r => r.books
  | Except.error _ => []

/-- C9 counterexample: the claim asserts that with pageSize = 10 and
N ≤ 10 total matching Titles page 1 contains all N items and
totalPages = 1; on the empty store N = 0 ≤ 10, yet `readBooks` returns
totalPages = Math.ceil(0 / 10) = 0, not 1. -/
theorem readBooks_singlePage_cex :
    readBooks 1 10 "title" "asc" "" false false emptyStore =
      Except.ok ⟨[], 0, 0⟩ := rfl

/-- C9 (amended): for a fixed store with duplicate-free ids, fixed
sort/filter parameters and pageSize ≥ 1, concatenating the page item
sequences for pages 1 .. totalPages yields exactly totalBooks items with
no duplicates; and with pageSize = 10 and 1 ≤ N ≤ 10 total matching
Titles page 1 contains all N items and totalPages = 1 (for N = 0 the
code returns totalPages = 0). -/
theorem readBooks_pagination_complete (pageSize : Nat) (sf so q : String)
    (s : Store) (hps : 1 ≤ pageSize) (hid : (s.books.map Book.id).Nodup)
    (r1 : ReadBooksResult)
    (h1 : readBooks 1 pageSize sf so q false false s = Except.ok r1) :
    ((List.range r1.totalPages).map
        (readBooksPage pageSize sf so q s)).flatten.length = r1.totalBooks ∧
    ((List.range r1.totalPages).map
        (readBooksPage pageSize sf so q s)).flatten.Nodup ∧
    (pageSize = 10 → 1 ≤ r1.totalBooks → r1.totalBooks ≤ 10 →
      r1.totalPages = 1 ∧ r1.books.length = r1.totalBooks ∧
      ∀ b ∈ s.books, readBooksWhere q b = true → b ∈ r1.books) := by
  rw [readBooks_ok_eq] at h1
  injection h1 with h1
  subst h1
  dsimp only
  have hpage : ∀ i : Nat, readBooksPage pageSize sf so q s i =
      ((sortBooks sf so (s.books.filter (readBooksWhere q))).drop
        (i * pageSize)).take pageSize := by
    intro i
    unfold readBooksPage
    rw [readBooks_ok_eq]
    rfl
  have hmap : (List.range
        (mathCeilDiv (s.books.filter (readBooksWhere q)).length pageSize)).map
        (readBooksPage pageSize sf so q s) =
      (List.range
        (mathCeilDiv (s.books.filter (readBooksWhere q)).length pageSize)).map
        (fun i => ((sortBooks sf so (s.books.filter (readBooksWhere q))).drop
          (i * pageSize)).take pageSize) :=
    List.map_congr_left (fun i _ => hpage i)
  have hlen : (sortBooks sf so (s.books.filter (readBooksWhere q))).length =
      (s.books.filter (readBooksWhere q)).length :=
    (sortBooks_perm sf so _).length_eq
  have hcover : (sortBooks sf so (s.books.filter (readBooksWhere q))).length ≤
      mathCeilDiv (s.books.filter (readBooksWhere q)).length pageSize * pageSize := by
    rw [hlen]
    exact le_mathCeilDiv_mul _ pageSize hps
  have hflat := join_chunks pageSize
    (mathCeilDiv (s.books.filter (readBooksWhere q)).length pageSize)
    (sortBooks sf so (s.books.filter (readBooksWhere q))) hcover
  have hnodupL : (sortBooks sf so (s.books.filter (readBooksWhere q))).Nodup :=
    (sortBooks_perm sf so _).symm.nodup
      (List.Nodup.filter _ (List.Nodup.of_map Book.id hid))
  refine ⟨?_, ?_, ?_⟩
  · rw [hmap, hflat, hlen]
  · rw [hmap, hflat]
    exact hnodupL
  · intro hps10 h1n hn10
    subst hps10
    have hlen10 : (sortBooks sf so (s.books.filter (readBooksWhere q))).length ≤ 10 := by
      omega
    refine ⟨?_, ?_, ?_⟩
    · unfold mathCeilDiv
      omega
    · rw [show ((1 : Nat) - 1) * 10 = 0 from rfl, List.drop_zero,
        List.length_take, hlen]
      omega
    · intro b hb hw
      have hmemL : b ∈ sortBooks sf so (s.books.filter (readBooksWhere q)) :=
        (sortBooks_perm sf so _).symm.subset (List.mem_filter.mpr ⟨hb, hw⟩)
      rw [show ((1 : Nat) - 1) * 10 = 0 from rfl, List.drop_zero,
        List.take_of_length_le hlen10]
      exact hmemL

/-- Witness for C9 (amended) on the sample store: a single 10-row page
holds both rows, so the concatenation over all pages has length
totalBooks = 2. -/
theorem readBooks_pagination_complete_witness :
    ((List.range 1).map
      (readBooksPage 10 "id" "asc" "" sampleStore)).flatten.length = 2 := by
  have h := readBooks_pagination_complete 10 "id" "asc" "" sampleStore
    (by decide) (by decide) ⟨[bookA, bookB], 2, 1⟩ rfl
  exact h.1

/-- C3 counterexample: `createBooks` does not return the created Title.
The insert carries no `.returning()`, so the driver result it returns is
command metadata whose `rows` array is empty; on the empty store the
insert does create the row (store-assigned id 1), yet the returned value
contains no Title record — in particular no id that `fetchBookById`
could be applied to. -/
theorem createBooks_result_cex :
    (createBooks "978" "T" "A" "G" 2 2 "C" false emptyStore).1 =
      Except.ok ⟨[], 1⟩ ∧
    (createBooks "978" "T" "A" "G" 2 2 "C" false emptyStore).2.books =
      [⟨1, "978", "T", "A", "G", 2, 2, "C"⟩] :=
  ⟨rfl, rfl⟩

/-- C3 (amended): `createBooks` inserts a Title row carrying exactly the
given parameters under the store-assigned id `nextBookId` and returns the
raw driver insert result (not the created Title); `fetchBookById` applied
to that store-assigned id yields a record whose isbn, title, author,
genre, totalCopies, availableCopies and cover match the inserted
parameters exactly. -/
theorem createBooks_roundtrip (isbn title author genre cover : String)
    (tc ac : Nat) (s : Store)
    (hfresh : ∀ b ∈ s.books, b.id ≠ s.nextBookId) :
    (createBooks isbn title author genre tc ac cover false s).1 =
      Except.ok ⟨[], 1⟩ ∧
    (createBooks isbn title author genre tc ac cover false s).2.books =
      s.books ++ [⟨s.nextBookId, isbn, title, author, genre, tc, ac, cover⟩] ∧
    fetchBookById s.nextBookId false
        (createBooks isbn title author genre tc ac cover false s).2 =
      Except.ok (some ⟨s.nextBookId, isbn, title, author, genre,
        tc, ac, cover⟩) := by
  refine ⟨rfl, rfl, ?_⟩
  have hfil : ((createBooks isbn title author genre tc ac cover false s).2.books.filter
      (fun b => b.id == s.nextBookId)) =
      [⟨s.nextBookId, isbn, title, author, genre, tc, ac, cover⟩] := by
    have hbooks : (createBooks isbn title author genre tc ac cover false s).2.books =
        s.books ++ [⟨s.nextBookId, isbn, title, author, genre, tc, ac, cover⟩] := rfl
    rw [hbooks, List.filter_append]
    have h1 : s.books.filter (fun b => b.id == s.nextBookId) = [] := by
      apply List.filter_eq_nil_iff.mpr
      intro b hb
      simpa using hfresh b hb
    rw [h1]
    simp
  have hfetch : fetchBookById s.nextBookId false
      (createBooks isbn title author genre tc ac cover false s).2 =
      Except.ok ((((createBooks isbn title author genre tc ac cover false s).2.books.filter
        (fun b => b.id == s.nextBookId)).take 1).head?) := rfl
  rw [hfetch, hfil]
  rfl

/-- Witness for C3 (amended) on the sample store (next id 3): after
inserting a third Title, fetching id 3 returns exactly the inserted
fields. -/
theorem createBooks_roundtrip_witness :
    fetchBookById 3 false
        (createBooks "333" "Gamma" "Gil" "Doc" 1 1 "c.png" false sampleStore).2 =
      Except.ok (some ⟨3, "333", "Gamma", "Gil", "Doc", 1, 1, "c.png"⟩) :=
  (createBooks_roundtrip "333" "Gamma" "Gil" "Doc" "c.png" 1 1 sampleStore
    (by decide)).2.2
